import Mathlib

/-
Verification of the gift certificate cartridge:
  - scripts/helpers/giftCertHelpers.js   (form handling, payment instrument creation)
  - the checkout helper module            (placeOrder, calculatePaymentTransaction)
  - controllers/Cart.js                   (MiniCart extension)
Monetary values are modelled as rationals tagged with a currency code; the
Demandware script engine compares Money values by their numeric value.
-/

namespace GiftCert

/-- Immutable currency tagged amount, modelling dw.value.Money as used by the
cartridge: a rational value plus a currency code. -/
structure Money where
  value : ℚ
  currency : String
deriving DecidableEq, Repr

/-- Money.add of the platform: the values are added; the cartridge only ever adds
amounts of the basket currency, so the currency of the left operand is kept. -/
def Money.add (m n : Money) : Money :=
  ⟨m.value + n.value, m.currency⟩

/-- Money.subtract of the platform, keeping the currency of the left operand. -/
def Money.subtract (m n : Money) : Money :=
  ⟨m.value - n.value, m.currency⟩

/-- Payment instrument attached to a basket: its payment method id, the bound
gift certificate code (meaningful only for gift certificate instruments), and
the amount carried by its payment transaction. -/
structure PaymentInstrument where
  paymentMethod : String
  giftCertificateCode : String
  transactionAmount : Money
deriving DecidableEq, Repr

/-- The constant dw.order.PaymentInstrument.METHOD_GIFT_CERTIFICATE. -/
def METHOD_GIFT_CERTIFICATE : String := "GIFT_CERTIFICATE"

/-- Gift certificate line item of a basket or order
(dw.order.GiftCertificateLineItem), as read and written by the cartridge. -/
structure GiftCertificateLineItem where
  uuid : String
  senderName : String
  recipientName : String
  recipientEmail : String
  message : String
  basePrice : Money
  grossPrice : Money
  netPrice : Money
deriving DecidableEq, Repr

/-- Basket state touched by the cartridge. -/
structure Basket where
  paymentInstruments : List PaymentInstrument
  giftCertificateLineItems : List GiftCertificateLineItem
  totalGrossPrice : Money
  currencyCode : String
  productQuantityTotal : Nat
deriving DecidableEq, Repr

/-- Durable stored value credential (dw.order.GiftCertificate). -/
structure GiftCertificate where
  giftCertificateCode : String
  balance : Money
  recipientEmail : String
  recipientName : String
  senderName : String
  message : String
  orderNo : String
deriving DecidableEq, Repr

/-- Basket.getGiftCertificatePaymentInstruments(): the payment instruments whose
payment method is GIFT_CERTIFICATE, in basket order. -/
def Basket.getGiftCertificatePaymentInstruments (b : Basket) : List PaymentInstrument :=
  b.paymentInstruments.filter (fun p => p.paymentMethod == METHOD_GIFT_CERTIFICATE)

/-- Basket.getGiftCertificatePaymentInstruments(code): the gift certificate
payment instruments bound to the given gift certificate code. -/
def Basket.getGiftCertificatePaymentInstrumentsByCode (b : Basket) (code : String) :
    List PaymentInstrument :=
  b.paymentInstruments.filter
    (fun p => p.paymentMethod == METHOD_GIFT_CERTIFICATE && p.giftCertificateCode == code)

/-- Net effect of the while loop at the start of
createGiftCertificatePaymentInstrument, which removes every instrument returned
by getGiftCertificatePaymentInstruments(code) from the basket. -/
def removeGiftCertPaymentInstrumentsByCode (currentBasket : Basket) (code : String) : Basket :=
  { currentBasket with
    paymentInstruments := currentBasket.paymentInstruments.filter
      (fun p => !(p.paymentMethod == METHOD_GIFT_CERTIFICATE && p.giftCertificateCode == code)) }

/-- The while loop summing getPaymentTransaction().getAmount() over a list of
payment instruments, starting from Money(0.0, currencyCode). -/
def sumGiftCertTotal (currencyCode : String) (l : List PaymentInstrument) : Money :=
  l.foldl (fun acc p => acc.add p.transactionAmount) ⟨0, currencyCode⟩

/-- Sum of the transaction amount values of a list of payment instruments. -/
def sumRedeemedValue : List PaymentInstrument → ℚ
  | [] => 0
  | p :: rest => p.transactionAmount.value + sumRedeemedValue rest

/-- createGiftCertificatePaymentInstrument of giftCertHelpers.js (lines 209 to
256, identical in the checkout helper module): removes the instruments already
bound to the certificate code, recomputes the open order balance from the
instruments still present, caps the redemption amount at that balance (Money
comparison is by value in the script engine), and attaches one new gift
certificate payment instrument. Returns the updated basket together with the
created instrument. -/
def createGiftCertificatePaymentInstrument (currentBasket : Basket)
    (giftCertificate : GiftCertificate) : Basket × PaymentInstrument :=
  let basket1 := removeGiftCertPaymentInstrumentsByCode currentBasket
    giftCertificate.giftCertificateCode
  let balance := giftCertificate.balance
  let orderTotal := currentBasket.totalGrossPrice
  let giftCertTotal := sumGiftCertTotal currentBasket.currencyCode
    basket1.getGiftCertificatePaymentInstruments
  let orderBalance := orderTotal.subtract giftCertTotal
  let amountToRedeem := if orderBalance.value < balance.value then orderBalance else balance
  let newInstrument : PaymentInstrument :=
    { paymentMethod := METHOD_GIFT_CERTIFICATE
      giftCertificateCode := giftCertificate.giftCertificateCode
      transactionAmount := amountToRedeem }
  ({ basket1 with paymentInstruments := basket1.paymentInstruments ++ [newInstrument] },
   newInstrument)

/-- getNonGiftCertificateAmount of the checkout helper module (lines 60 to 84):
order total minus the summed redemption amounts of all gift certificate payment
instruments of the basket. -/
def getNonGiftCertificateAmount (currentBasket : Basket) : Money :=
  let giftCertTotal := sumGiftCertTotal currentBasket.currencyCode
    currentBasket.getGiftCertificatePaymentInstruments
  currentBasket.totalGrossPrice.subtract giftCertTotal

/-- The scanning while loop of calculatePaymentTransaction: accumulates the
redemption amounts of gift certificate instruments until the first instrument
with a different payment method is found; that instrument, if any, is captured
and the loop breaks. -/
def scanInstruments : List PaymentInstrument → Money → Money × Option PaymentInstrument
  | [], giftCertTotal => (giftCertTotal, none)
  | p :: rest, giftCertTotal =>
    if p.paymentMethod == METHOD_GIFT_CERTIFICATE then
      scanInstruments rest (giftCertTotal.add p.transactionAmount)
    else (giftCertTotal, some p)

/-- Writing the payment transaction amount of the first non gift certificate
payment instrument in place (setAmount on its payment transaction). -/
def setFirstNonGCAmount : List PaymentInstrument → Money → List PaymentInstrument
  | [], _ => []
  | p :: rest, amt =>
    if p.paymentMethod == METHOD_GIFT_CERTIFICATE then p :: setFirstNonGCAmount rest amt
    else { p with transactionAmount := amt } :: rest

/-- Result of calculatePaymentTransaction: the basket after any mutation together
with the error flag of the returned result object. -/
structure CalcResult where
  basket : Basket
  error : Bool
deriving DecidableEq, Repr

/-- calculatePaymentTransaction of the checkout helper module (lines 91 to 148):
scans for the first non gift certificate instrument; without one it succeeds
exactly when the accumulated gift certificate total covers the order total;
with one it writes the open amount, clamped below at zero Money, onto that
instrument inside a transaction. -/
def calculatePaymentTransaction (currentBasket : Basket) : CalcResult :=
  let scanned := scanInstruments currentBasket.paymentInstruments ⟨0, currentBasket.currencyCode⟩
  match scanned.2 with
  | none =>
    if scanned.1.value ≥ currentBasket.totalGrossPrice.value then
      { basket := currentBasket, error := false }
    else
      { basket := currentBasket, error := true }
  | some _ =>
    let amount := getNonGiftCertificateAmount currentBasket
    let newAmount := if amount.value ≤ 0 then (⟨0, amount.currency⟩ : Money) else amount
    { basket := { currentBasket with
        paymentInstruments := setFirstNonGCAmount currentBasket.paymentInstruments newAmount }
      error := false }

/-- Order carrying gift certificate line items (dw.order.Order as used by
placeOrder). -/
structure Order where
  orderNo : String
  giftCertificateLineItems : List GiftCertificateLineItem
deriving DecidableEq, Repr

/-- createGiftCertificateFromLineItem of giftCertHelpers.js (lines 166 to 176):
materializes a gift certificate whose initial balance is the net price value of
the line item (GiftCertificateMgr.createGiftCertificate(netPrice.value)), copies
the recipient, sender and message fields, and tags the certificate with the
order number. The platform generates the certificate code; it is modelled as
the empty string since the cartridge never reads it on this path. -/
def createGiftCertificateFromLineItem (giftCertificateLineItem : GiftCertificateLineItem)
    (orderNo : String) : GiftCertificate :=
  { giftCertificateCode := ""
    balance := ⟨giftCertificateLineItem.netPrice.value, giftCertificateLineItem.netPrice.currency⟩
    recipientEmail := giftCertificateLineItem.recipientEmail
    recipientName := giftCertificateLineItem.recipientName
    senderName := giftCertificateLineItem.senderName
    message := giftCertificateLineItem.message
    orderNo := orderNo }

/-- Observable events of a placeOrder run, in program order. -/
inductive Ev where
  | txBegin
  | placeOrderCall
  | setConfirmation (confirmed : Bool)
  | setExportReady
  | createCertificate (gc : GiftCertificate)
  | sendEmail (recipientEmail : String)
  | txCommit
  | failOrderInOwnTransaction
deriving DecidableEq, Repr

/-- A dispatched email event. -/
def isSendEmail : Ev → Bool
  | Ev.sendEmail _ => true
  | _ => false

/-- ECMAScript value as needed for the status check in placeOrder: a Number or a
reference to a host object, identified by a reference id. -/
inductive JsValue where
  | num (n : ℚ)
  | obj (id : Nat)
deriving DecidableEq, Repr

/-- ECMAScript strict equality: two Numbers compare by value, two object
references by identity, and a Number is never strictly equal to an object
reference. -/
def jsStrictEq : JsValue → JsValue → Bool
  | JsValue.num x, JsValue.num y => x == y
  | JsValue.obj i, JsValue.obj j => i == j
  | _, _ => false

/-- A dw.system.Status host object as returned by OrderMgr.placeOrder: an object
reference with a status code readable through getStatus(), 0 for OK and 1 for
ERROR. -/
structure DwStatus where
  objId : Nat
  status : Nat
deriving DecidableEq, Repr

/-- The class constant dw.system.Status.ERROR, a Number with value 1. -/
def Status.ERROR : ℚ := 1

/-- The forEach(sendGiftCertificateEmail) step of placeOrder: dispatches one
email per certificate, in order; emailFails tells whether the dispatch at a
given index raises, which aborts the iteration. Returns the dispatch events and
whether an exception escaped. -/
def sendEmailsRun (emailFails : Nat → Bool) : Nat → List GiftCertificate → List Ev × Bool
  | _, [] => ([], false)
  | i, gc :: rest =>
    if emailFails i then ([Ev.sendEmail gc.recipientEmail], true)
    else
      let r := sendEmailsRun emailFails (i + 1) rest
      (Ev.sendEmail gc.recipientEmail :: r.1, r.2)

/-- Result of a placeOrder run: the error flag of the returned result object, the
event trace, and the gift certificates that are durable after the run
(certificates created inside an aborted transaction are rolled back). -/
structure PlaceOrderResult where
  error : Bool
  events : List Ev
  materializedGiftCertificates : List GiftCertificate
deriving Repr

/-- placeOrder of the checkout helper module (lines 19 to 51): begins a
transaction, invokes order management placement, checks the returned Status
object against the Number constant Status.ERROR with strict equality, sets the
confirmation and export status, materializes one gift certificate per line item,
dispatches the recipient emails, and commits; any exception raised inside the
try block is caught, OrderMgr.failOrder runs wrapped in its own transaction, and
the error flag of the result is set. -/
def placeOrder (order : Order) (fraudDetectionStatus : String) (placeOrderStatus : DwStatus)
    (emailFails : Nat → Bool) : PlaceOrderResult :=
  if jsStrictEq (JsValue.obj placeOrderStatus.objId) (JsValue.num Status.ERROR) then
    { error := true
      events := [Ev.txBegin, Ev.placeOrderCall, Ev.failOrderInOwnTransaction]
      materializedGiftCertificates := [] }
  else
    let confirmed := !(fraudDetectionStatus == "flag")
    let certs := order.giftCertificateLineItems.map
      (fun lineItem => createGiftCertificateFromLineItem lineItem order.orderNo)
    let emailRun := sendEmailsRun emailFails 0 certs
    if emailRun.2 then
      { error := true
        events := [Ev.txBegin, Ev.placeOrderCall, Ev.setConfirmation confirmed, Ev.setExportReady]
          ++ certs.map Ev.createCertificate ++ emailRun.1 ++ [Ev.failOrderInOwnTransaction]
        materializedGiftCertificates := [] }
    else
      { error := false
        events := [Ev.txBegin, Ev.placeOrderCall, Ev.setConfirmation confirmed, Ev.setExportReady]
          ++ certs.map Ev.createCertificate ++ emailRun.1 ++ [Ev.txCommit]
        materializedGiftCertificates := certs }

/-- The gift certificates created by the map step of placeOrder. -/
def certsOf (order : Order) : List GiftCertificate :=
  order.giftCertificateLineItems.map
    (fun lineItem => createGiftCertificateFromLineItem lineItem order.orderNo)

/-- A string valued form field with its validity flag and error message. -/
structure StringFormField where
  value : String
  valid : Bool
  error : String
deriving DecidableEq, Repr

/-- The amount form field, a number valued field with validity flag and error
message. -/
structure AmountFormField where
  value : ℚ
  valid : Bool
  error : String
deriving DecidableEq, Repr

/-- The giftcert.purchase form. Field names follow the source; the source field
named from is called fromName here because from is reserved in Lean. -/
structure GiftCertPurchaseForm where
  fromName : StringFormField
  recipient : StringFormField
  recipientEmail : StringFormField
  confirmRecipientEmail : StringFormField
  message : StringFormField
  amount : AmountFormField
  lineItemId : StringFormField
deriving DecidableEq, Repr

/-- The giftcert form: the purchase subform together with the validity flag of
the whole form. -/
structure GiftCertForm where
  purchase : GiftCertPurchaseForm
  valid : Bool
deriving DecidableEq, Repr

/-- JS String.prototype.toLowerCase as applied to the email fields, written as a
structural map of Char.toLower over the character list of the string. -/
def toLowerCase (s : String) : String :=
  String.mk (s.data.map Char.toLower)

/-- processAddToBasket of giftCertHelpers.js (lines 135 to 158): invalidates the
two email fields and the form when recipient and confirmation email differ
after lower casing, then invalidates a still valid amount lying outside the
range 5 to 5000; the error messages are the resource keys passed to
Resource.msg. -/
def processAddToBasket (form : GiftCertForm) : GiftCertForm :=
  let giftCertForm := form
  let giftCertForm :=
    if !(toLowerCase giftCertForm.purchase.recipientEmail.value
        == toLowerCase giftCertForm.purchase.confirmRecipientEmail.value) then
      { giftCertForm with
        purchase := { giftCertForm.purchase with
          recipientEmail := { giftCertForm.purchase.recipientEmail with valid := false }
          confirmRecipientEmail := { giftCertForm.purchase.confirmRecipientEmail with
            valid := false, error := "error.message.mismatch.email" } }
        valid := false }
    else giftCertForm
  if giftCertForm.purchase.amount.valid
      && (decide (giftCertForm.purchase.amount.value < 5)
        || decide (giftCertForm.purchase.amount.value > 5000)) then
    { giftCertForm with
      purchase := { giftCertForm.purchase with
        amount := { giftCertForm.purchase.amount with
          valid := false, error := "giftcert.amountparseerror" } }
      valid := false }
  else giftCertForm

/-- getGiftCertificateLineItemByUUID of giftCertHelpers.js (lines 12 to 20): the
first line item with the given UUID, if any. -/
def getGiftCertificateLineItemByUUID : List GiftCertificateLineItem → String →
    Option GiftCertificateLineItem
  | [], _ => none
  | item :: rest, uuid =>
    if item.uuid == uuid then some item else getGiftCertificateLineItemByUUID rest uuid

/-- In place mutation of the line item found by UUID, modelled as replacing the
first matching entry of the list. -/
def replaceGiftCertificateLineItem (uuid : String) (updated : GiftCertificateLineItem) :
    List GiftCertificateLineItem → List GiftCertificateLineItem
  | [] => []
  | item :: rest =>
    if item.uuid == uuid then updated :: rest
    else item :: replaceGiftCertificateLineItem uuid updated rest

/-- updateGiftCert of giftCertHelpers.js (lines 97 to 127): looks the line item
up by the UUID carried in the form, returns null when the basket has no line
items, the UUID is empty, or no line item matches; otherwise assigns the four
text form values and rewrites base, gross and net price to Money(amount,
existing currency). Returns the updated basket and the updated line item. -/
def updateGiftCert (currentBasket : Basket) (purchaseForm : GiftCertPurchaseForm) :
    Option (Basket × GiftCertificateLineItem) :=
  let giftCertificateLineItems := currentBasket.giftCertificateLineItems
  let uuid := purchaseForm.lineItemId.value
  let found :=
    if giftCertificateLineItems.length > 0 && !(uuid == "") then
      getGiftCertificateLineItemByUUID giftCertificateLineItems uuid
    else none
  match found with
  | none => none
  | some item =>
    let updated : GiftCertificateLineItem :=
      { item with
        senderName := purchaseForm.fromName.value
        recipientName := purchaseForm.recipient.value
        recipientEmail := purchaseForm.recipientEmail.value
        message := purchaseForm.message.value
        basePrice := ⟨purchaseForm.amount.value, item.basePrice.currency⟩
        grossPrice := ⟨purchaseForm.amount.value, item.grossPrice.currency⟩
        netPrice := ⟨purchaseForm.amount.value, item.netPrice.currency⟩ }
    some ({ currentBasket with
            giftCertificateLineItems :=
              replaceGiftCertificateLineItem uuid updated giftCertificateLineItems },
          updated)

/-- The price property of a line item resolves to the net or the gross price
depending on the taxation policy of the site; the policy is passed explicitly. -/
def GiftCertificateLineItem.price (li : GiftCertificateLineItem) (taxationPolicyNet : Bool) :
    Money :=
  if taxationPolicyNet then li.netPrice else li.grossPrice

/-- The object built by getGiftLineItemObj to prefill the purchase form. -/
structure GiftLineItemObj where
  fromName : String
  lineItemId : String
  recipient : String
  recipientEmail : String
  confirmRecipientEmail : String
  message : String
  amount : ℚ
deriving DecidableEq, Repr

/-- getGiftLineItemObj of giftCertHelpers.js (lines 27 to 38). -/
def getGiftLineItemObj (taxationPolicyNet : Bool)
    (giftCertificateLineItem : GiftCertificateLineItem) : GiftLineItemObj :=
  { fromName := giftCertificateLineItem.senderName
    lineItemId := giftCertificateLineItem.uuid
    recipient := giftCertificateLineItem.recipientName
    recipientEmail := giftCertificateLineItem.recipientEmail
    confirmRecipientEmail := giftCertificateLineItem.recipientEmail
    message := giftCertificateLineItem.message
    amount := (giftCertificateLineItem.price taxationPolicyNet).value }

/-- MiniCart append handler of controllers/Cart.js (lines 8 to 28): it guards the
product quantity read with a null check, but then unconditionally dereferences
currentBasket.giftCertificateLineItems, so a null current basket raises a
TypeError, modelled as the error branch. -/
def miniCart (currentBasket : Option Basket) : Except Unit Nat :=
  let quantityTotal := match currentBasket with
    | some b => b.productQuantityTotal
    | none => 0
  match currentBasket with
  | none => Except.error ()
  | some b =>
    if b.giftCertificateLineItems.length > 0 then
      Except.ok (quantityTotal + b.giftCertificateLineItems.length)
    else Except.ok quantityTotal

/-- Whether a sendEmail event appears strictly before some txCommit event. -/
def existsEmailBeforeCommit : List Ev → Bool
  | [] => false
  | e :: rest =>
    (isSendEmail e && rest.any (fun x => decide (x = Ev.txCommit))) || existsEmailBeforeCommit rest

/-- Whether a sendEmail event appears strictly after some txCommit event. -/
def emailAfterCommitB : List Ev → Bool
  | [] => false
  | Ev.txCommit :: rest => rest.any isSendEmail || emailAfterCommitB rest
  | _ :: rest => emailAfterCommitB rest

/-- A 15 USD redemption bound to certificate code A. -/
def piA15 : PaymentInstrument :=
  { paymentMethod := METHOD_GIFT_CERTIFICATE
    giftCertificateCode := "A"
    transactionAmount := ⟨15, "USD"⟩ }

/-- A 10 USD redemption bound to certificate code A. -/
def piA10 : PaymentInstrument :=
  { paymentMethod := METHOD_GIFT_CERTIFICATE
    giftCertificateCode := "A"
    transactionAmount := ⟨10, "USD"⟩ }

/-- A 3 USD redemption bound to certificate code A. -/
def piA3 : PaymentInstrument :=
  { paymentMethod := METHOD_GIFT_CERTIFICATE
    giftCertificateCode := "A"
    transactionAmount := ⟨3, "USD"⟩ }

/-- A conventional card instrument. -/
def cardInstr : PaymentInstrument :=
  { paymentMethod := "CREDIT_CARD"
    giftCertificateCode := ""
    transactionAmount := ⟨0, "USD"⟩ }

/-- Basket with order total 10 USD already carrying a 15 USD redemption under
code A, so the remaining order balance is negative. -/
def bNeg : Basket :=
  { paymentInstruments := [piA15]
    giftCertificateLineItems := []
    totalGrossPrice := ⟨10, "USD"⟩
    currencyCode := "USD"
    productQuantityTotal := 0 }

/-- Credential with code B and balance 20 USD. -/
def gcNeg : GiftCertificate :=
  { giftCertificateCode := "B"
    balance := ⟨20, "USD"⟩
    recipientEmail := ""
    recipientName := ""
    senderName := ""
    message := ""
    orderNo := "" }

/-- Basket fully covered by a single gift certificate instrument and holding no
conventional instrument. -/
def bAllGC : Basket :=
  { paymentInstruments := [piA10]
    giftCertificateLineItems := []
    totalGrossPrice := ⟨10, "USD"⟩
    currencyCode := "USD"
    productQuantityTotal := 0 }

/-- Basket with a 3 USD gift certificate redemption followed by a conventional
card instrument, order total 10 USD. -/
def bConv : Basket :=
  { paymentInstruments := [piA3, cardInstr]
    giftCertificateLineItems := []
    totalGrossPrice := ⟨10, "USD"⟩
    currencyCode := "USD"
    productQuantityTotal := 0 }

/-- Certificate line item over 25 USD. -/
def liA : GiftCertificateLineItem :=
  { uuid := "u1"
    senderName := "Ann"
    recipientName := "Bob"
    recipientEmail := "bob@example.com"
    message := "happy birthday"
    basePrice := ⟨25, "USD"⟩
    grossPrice := ⟨25, "USD"⟩
    netPrice := ⟨25, "USD"⟩ }

/-- Certificate line item over 10 USD. -/
def liB : GiftCertificateLineItem :=
  { uuid := "u2"
    senderName := "Ann"
    recipientName := "Carol"
    recipientEmail := "carol@example.com"
    message := "thanks"
    basePrice := ⟨10, "USD"⟩
    grossPrice := ⟨10, "USD"⟩
    netPrice := ⟨10, "USD"⟩ }

/-- Order carrying one certificate line item. -/
def ordOne : Order :=
  { orderNo := "00001"
    giftCertificateLineItems := [liA] }

/-- Order carrying two certificate line items, 25 and 10 USD. -/
def ordTwo : Order :=
  { orderNo := "00002"
    giftCertificateLineItems := [liA, liB] }

/-- An OK placement status object. -/
def stOK : DwStatus := { objId := 7, status := 0 }

/-- An ERROR placement status object. -/
def stErr : DwStatus := { objId := 5, status := 1 }

/-- Email dispatch that never raises. -/
def noFail : Nat → Bool := fun _ => false

/-- Email dispatch that raises at every index. -/
def allFail : Nat → Bool := fun _ => true

/-- Line item to be edited in the round trip witness. -/
def li9 : GiftCertificateLineItem :=
  { uuid := "u9"
    senderName := "Old Sender"
    recipientName := "Old Recipient"
    recipientEmail := "old@example.com"
    message := "old"
    basePrice := ⟨40, "USD"⟩
    grossPrice := ⟨40, "USD"⟩
    netPrice := ⟨40, "USD"⟩ }

/-- Basket holding the line item to be edited. -/
def bForm : Basket :=
  { paymentInstruments := []
    giftCertificateLineItems := [li9]
    totalGrossPrice := ⟨40, "USD"⟩
    currencyCode := "USD"
    productQuantityTotal := 0 }

/-- Purchase form editing line item u9 with new values and amount 30. -/
def f8 : GiftCertPurchaseForm :=
  { fromName := ⟨"Ann", true, ""⟩
    recipient := ⟨"Bob", true, ""⟩
    recipientEmail := ⟨"bob@example.com", true, ""⟩
    confirmRecipientEmail := ⟨"bob@example.com", true, ""⟩
    message := ⟨"hello", true, ""⟩
    amount := ⟨30, true, ""⟩
    lineItemId := ⟨"u9", true, ""⟩ }

/-- The line item u9 after the edit through f8. -/
def item8 : GiftCertificateLineItem :=
  { uuid := "u9"
    senderName := "Ann"
    recipientName := "Bob"
    recipientEmail := "bob@example.com"
    message := "hello"
    basePrice := ⟨30, "USD"⟩
    grossPrice := ⟨30, "USD"⟩
    netPrice := ⟨30, "USD"⟩ }

/-- The basket after the edit through f8. -/
def bForm2 : Basket :=
  { bForm with giftCertificateLineItems := [item8] }

/-- A purchase form whose emails differ only in letter case and whose amount is
inside the range, wrapped in a form that is currently valid. -/
def f10 : GiftCertForm :=
  { purchase :=
    { fromName := ⟨"Ann", true, ""⟩
      recipient := ⟨"Bob", true, ""⟩
      recipientEmail := ⟨"A@B.com", true, ""⟩
      confirmRecipientEmail := ⟨"a@b.com", true, ""⟩
      message := ⟨"hello", true, ""⟩
      amount := ⟨50, true, ""⟩
      lineItemId := ⟨"", true, ""⟩ }
    valid := true }

lemma foldl_add_transactionAmount (l : List PaymentInstrument) (m : Money) :
    (l.foldl (fun acc p => acc.add p.transactionAmount) m).value = m.value + sumRedeemedValue l := by
  induction l generalizing m with
  | nil => simp [sumRedeemedValue]
  | cons p rest ih =>
    rw [List.foldl_cons, ih (m.add p.transactionAmount)]
    simp only [Money.add, sumRedeemedValue]
    ring

lemma sumGiftCertTotal_value (c : String) (l : List PaymentInstrument) :
    (sumGiftCertTotal c l).value = sumRedeemedValue l := by
  simpa [sumGiftCertTotal] using foldl_add_transactionAmount l ⟨0, c⟩

lemma filter_idem {α : Type} (q : α → Bool) (l : List α) :
    (l.filter q).filter q = l.filter q := by
  induction l with
  | nil => rfl
  | cons a rest ih =>
    by_cases h : q a <;> simp [List.filter_cons, h, ih]

lemma filter_not_filter {α : Type} (q : α → Bool) (l : List α) :
    (l.filter (fun a => !(q a))).filter q = [] := by
  induction l with
  | nil => rfl
  | cons a rest ih =>
    by_cases h : q a <;> simp [List.filter_cons, h, ih]

lemma scanInstruments_all_gc (l : List PaymentInstrument) (acc : Money)
    (h : ∀ p ∈ l, p.paymentMethod = METHOD_GIFT_CERTIFICATE) :
    scanInstruments l acc = (l.foldl (fun a p => a.add p.transactionAmount) acc, none) := by
  induction l generalizing acc with
  | nil => simp [scanInstruments]
  | cons p rest ih =>
    have hp : (p.paymentMethod == METHOD_GIFT_CERTIFICATE) = true := by
      simp [h p (List.mem_cons_self p rest)]
    simp [scanInstruments, hp, ih _ (fun q hq => h q (List.mem_cons_of_mem p hq))]

lemma scanInstruments_split (pre : List PaymentInstrument) (target : PaymentInstrument)
    (post : List PaymentInstrument) (acc : Money)
    (hpre : ∀ p ∈ pre, p.paymentMethod = METHOD_GIFT_CERTIFICATE)
    (ht : target.paymentMethod ≠ METHOD_GIFT_CERTIFICATE) :
    scanInstruments (pre ++ target :: post) acc
      = (pre.foldl (fun a p => a.add p.transactionAmount) acc, some target) := by
  induction pre generalizing acc with
  | nil =>
    have h2 : (target.paymentMethod == METHOD_GIFT_CERTIFICATE) = false := by
      simp [ht]
    simp [scanInstruments, h2]
  | cons p rest ih =>
    have hp : (p.paymentMethod == METHOD_GIFT_CERTIFICATE) = true := by
      simp [hpre p (List.mem_cons_self p rest)]
    simp [scanInstruments, hp,
      ih (acc.add p.transactionAmount) (fun q hq => hpre q (List.mem_cons_of_mem p hq))]

lemma setFirstNonGCAmount_split (pre : List PaymentInstrument) (target : PaymentInstrument)
    (post : List PaymentInstrument) (amt : Money)
    (hpre : ∀ p ∈ pre, p.paymentMethod = METHOD_GIFT_CERTIFICATE)
    (ht : target.paymentMethod ≠ METHOD_GIFT_CERTIFICATE) :
    setFirstNonGCAmount (pre ++ target :: post) amt
      = pre ++ { target with transactionAmount := amt } :: post := by
  induction pre with
  | nil =>
    have h2 : (target.paymentMethod == METHOD_GIFT_CERTIFICATE) = false := by
      simp [ht]
    simp [setFirstNonGCAmount, h2]
  | cons p rest ih =>
    have hp : (p.paymentMethod == METHOD_GIFT_CERTIFICATE) = true := by
      simp [hpre p (List.mem_cons_self p rest)]
    simp [setFirstNonGCAmount, hp, ih (fun q hq => hpre q (List.mem_cons_of_mem p hq))]

lemma sendEmailsRun_no_raise (f : Nat → Bool) (i : Nat) (certs : List GiftCertificate)
    (h : (sendEmailsRun f i certs).2 = false) :
    (sendEmailsRun f i certs).1 = certs.map (fun gc => Ev.sendEmail gc.recipientEmail) := by
  induction certs generalizing i with
  | nil => simp [sendEmailsRun]
  | cons gc rest ih =>
    by_cases hf : f i
    · simp [sendEmailsRun, hf] at h
    · simp only [sendEmailsRun, hf, Bool.false_eq_true, if_false, List.map_cons] at h ⊢
      simp [ih (i + 1) h]

lemma txCommit_not_mem_sendEmailsRun (f : Nat → Bool) (i : Nat)
    (certs : List GiftCertificate) :
    Ev.txCommit ∉ (sendEmailsRun f i certs).1 := by
  induction certs generalizing i with
  | nil => simp [sendEmailsRun]
  | cons gc rest ih =>
    by_cases hf : f i <;> simp [sendEmailsRun, hf, ih (i + 1)]

lemma emailAfterCommitB_of_not_mem (l : List Ev) (h : Ev.txCommit ∉ l) :
    emailAfterCommitB l = false := by
  induction l with
  | nil => rfl
  | cons e rest ih =>
    cases e <;> simp_all [emailAfterCommitB]

lemma emailAfterCommitB_append_commit (l : List Ev) (h : Ev.txCommit ∉ l) :
    emailAfterCommitB (l ++ [Ev.txCommit]) = false := by
  induction l with
  | nil => simp [emailAfterCommitB, isSendEmail]
  | cons e rest ih =>
    cases e <;> simp_all [emailAfterCommitB]

lemma filter_isSendEmail_map_create (certs : List GiftCertificate) :
    (certs.map Ev.createCertificate).filter isSendEmail = [] := by
  induction certs with
  | nil => rfl
  | cons gc rest ih => simp [List.filter_cons, isSendEmail, ih]

lemma filter_isSendEmail_map_sendEmail (certs : List GiftCertificate) :
    (certs.map (fun gc => Ev.sendEmail gc.recipientEmail)).filter isSendEmail
      = certs.map (fun gc => Ev.sendEmail gc.recipientEmail) := by
  induction certs with
  | nil => rfl
  | cons gc rest ih => simp [List.filter_cons, isSendEmail, ih]

lemma txCommit_not_mem_map_create (certs : List GiftCertificate) :
    Ev.txCommit ∉ certs.map Ev.createCertificate := by
  induction certs with
  | nil => simp
  | cons gc rest ih => simp [ih]

lemma placeOrder_unfold (order : Order) (fraud : String) (st : DwStatus) (f : Nat → Bool) :
    placeOrder order fraud st f
      = (if (sendEmailsRun f 0 (certsOf order)).2 then
          { error := true
            events := [Ev.txBegin, Ev.placeOrderCall, Ev.setConfirmation (!(fraud == "flag")),
                Ev.setExportReady] ++ (certsOf order).map Ev.createCertificate
              ++ (sendEmailsRun f 0 (certsOf order)).1 ++ [Ev.failOrderInOwnTransaction]
            materializedGiftCertificates := [] }
        else
          { error := false
            events := [Ev.txBegin, Ev.placeOrderCall, Ev.setConfirmation (!(fraud == "flag")),
                Ev.setExportReady] ++ (certsOf order).map Ev.createCertificate
              ++ (sendEmailsRun f 0 (certsOf order)).1 ++ [Ev.txCommit]
            materializedGiftCertificates := certsOf order }) := rfl

lemma getByUUID_replace (uuid : String) (it0 updated : GiftCertificateLineItem)
    (l : List GiftCertificateLineItem)
    (hfind : getGiftCertificateLineItemByUUID l uuid = some it0)
    (hu : updated.uuid = it0.uuid) :
    getGiftCertificateLineItemByUUID (replaceGiftCertificateLineItem uuid updated l) uuid
      = some updated := by
  induction l with
  | nil => simp [getGiftCertificateLineItemByUUID] at hfind
  | cons itm rest ih =>
    by_cases hm : (itm.uuid == uuid) = true
    · simp only [getGiftCertificateLineItemByUUID, hm, if_true, Option.some.injEq] at hfind
      have hup : (updated.uuid == uuid) = true := by
        have : itm.uuid = uuid := by simpa using hm
        simp [hu, ← hfind, this]
      simp [replaceGiftCertificateLineItem, hm, getGiftCertificateLineItemByUUID, hup]
    · simp only [getGiftCertificateLineItemByUUID, hm, if_false] at hfind
      simp [replaceGiftCertificateLineItem, hm, getGiftCertificateLineItemByUUID, ih hfind]

lemma remove_totalGrossPrice (b : Basket) (code : String) :
    (removeGiftCertPaymentInstrumentsByCode b code).totalGrossPrice = b.totalGrossPrice := rfl

lemma remove_currencyCode (b : Basket) (code : String) :
    (removeGiftCertPaymentInstrumentsByCode b code).currencyCode = b.currencyCode := rfl

lemma remove_after_create (b : Basket) (gc : GiftCertificate) :
    removeGiftCertPaymentInstrumentsByCode
        (createGiftCertificatePaymentInstrument b gc).1 gc.giftCertificateCode
      = removeGiftCertPaymentInstrumentsByCode b gc.giftCertificateCode := by
  simp only [createGiftCertificatePaymentInstrument, removeGiftCertPaymentInstrumentsByCode,
    List.filter_append]
  rw [filter_idem]
  simp [List.filter_cons]

lemma createGCPI_amount_value (b : Basket) (gc : GiftCertificate) :
    (createGiftCertificatePaymentInstrument b gc).2.transactionAmount.value
      = min gc.balance.value
          (b.totalGrossPrice.value
            - sumRedeemedValue (removeGiftCertPaymentInstrumentsByCode b
                gc.giftCertificateCode).getGiftCertificatePaymentInstruments) := by
  have hc : ((b.totalGrossPrice.subtract (sumGiftCertTotal b.currencyCode
        (removeGiftCertPaymentInstrumentsByCode b
          gc.giftCertificateCode).getGiftCertificatePaymentInstruments)).value
        < gc.balance.value)
      ↔ (b.totalGrossPrice.value
          - sumRedeemedValue (removeGiftCertPaymentInstrumentsByCode b
              gc.giftCertificateCode).getGiftCertificatePaymentInstruments
          < gc.balance.value) := by
    simp [Money.subtract, sumGiftCertTotal_value]
  simp only [createGiftCertificatePaymentInstrument]
  by_cases h : b.totalGrossPrice.value
      - sumRedeemedValue (removeGiftCertPaymentInstrumentsByCode b
          gc.giftCertificateCode).getGiftCertificatePaymentInstruments < gc.balance.value
  · rw [if_pos (hc.mpr h), min_eq_right (le_of_lt h)]
    simp [Money.subtract, sumGiftCertTotal_value]
  · rw [if_neg (fun hh => h (hc.mp hh)), min_eq_left (not_lt.mp h)]

/-- C1, amended. createGiftCertificatePaymentInstrument removes the instruments
already bound to the certificate code, attaches exactly one new gift certificate
instrument bound to that code, and the value of its amount is
min(credential balance, order total minus the sum redeemed by the instruments
remaining after the removal step). In particular, when that remaining order
balance is nonpositive and the credential balance is nonnegative, an instrument
is still created rather than rejected, but it carries exactly that nonpositive
remaining balance as its amount (zero only when the remaining balance is zero),
not necessarily zero. -/
theorem createGiftCertificatePaymentInstrument_amount_spec (b : Basket) (gc : GiftCertificate) :
    (createGiftCertificatePaymentInstrument b gc).1.paymentInstruments
        = (removeGiftCertPaymentInstrumentsByCode b gc.giftCertificateCode).paymentInstruments
            ++ [(createGiftCertificatePaymentInstrument b gc).2] ∧
    (createGiftCertificatePaymentInstrument b gc).2.paymentMethod = METHOD_GIFT_CERTIFICATE ∧
    (createGiftCertificatePaymentInstrument b gc).2.giftCertificateCode
        = gc.giftCertificateCode ∧
    (createGiftCertificatePaymentInstrument b gc).2.transactionAmount.value
        = min gc.balance.value
            (b.totalGrossPrice.value
              - sumRedeemedValue (removeGiftCertPaymentInstrumentsByCode b
                  gc.giftCertificateCode).getGiftCertificatePaymentInstruments) ∧
    (0 ≤ gc.balance.value →
      b.totalGrossPrice.value
          - sumRedeemedValue (removeGiftCertPaymentInstrumentsByCode b
              gc.giftCertificateCode).getGiftCertificatePaymentInstruments ≤ 0 →
      (createGiftCertificatePaymentInstrument b gc).2.transactionAmount.value
        = b.totalGrossPrice.value
            - sumRedeemedValue (removeGiftCertPaymentInstrumentsByCode b
                gc.giftCertificateCode).getGiftCertificatePaymentInstruments) := by
  refine ⟨rfl, rfl, rfl, createGCPI_amount_value b gc, ?_⟩
  intro hbal hle
  rw [createGCPI_amount_value b gc]
  exact min_eq_right (le_trans hle hbal)

lemma bNeg_sum15 :
    sumRedeemedValue (removeGiftCertPaymentInstrumentsByCode bNeg
        gcNeg.giftCertificateCode).getGiftCertificatePaymentInstruments = 15 := by
  simp [bNeg, gcNeg, piA15, removeGiftCertPaymentInstrumentsByCode,
    Basket.getGiftCertificatePaymentInstruments, sumRedeemedValue, METHOD_GIFT_CERTIFICATE]

/-- C1, witness for the amended theorem: on the basket with order total 10 USD
and a 15 USD redemption under another code, the remaining balance is minus 5 and
the credential balance 20 is nonnegative, and the created instrument carries
exactly that remaining balance. -/
theorem createGiftCertificatePaymentInstrument_amount_spec_witness :
    (createGiftCertificatePaymentInstrument bNeg gcNeg).2.transactionAmount.value
      = bNeg.totalGrossPrice.value
          - sumRedeemedValue (removeGiftCertPaymentInstrumentsByCode bNeg
              gcNeg.giftCertificateCode).getGiftCertificatePaymentInstruments :=
  (createGiftCertificatePaymentInstrument_amount_spec bNeg gcNeg).2.2.2.2
    (by norm_num [gcNeg]) (by rw [bNeg_sum15]; norm_num [bNeg])

/-- C1, counterexample to the claim as stated: with order total 10 USD, an
existing 15 USD redemption under code A and a credential of balance 20 under
code B, the remaining order balance is nonpositive, yet the created instrument
carries amount minus 5, not zero. -/
theorem createGiftCertificatePaymentInstrument_nonpositive_counterexample :
    (bNeg.totalGrossPrice.value
        - sumRedeemedValue (removeGiftCertPaymentInstrumentsByCode bNeg
            gcNeg.giftCertificateCode).getGiftCertificatePaymentInstruments ≤ 0) ∧
    (createGiftCertificatePaymentInstrument bNeg gcNeg).2.transactionAmount.value = -5 ∧
    ¬ (createGiftCertificatePaymentInstrument bNeg gcNeg).2.transactionAmount.value = 0 := by
  refine ⟨by rw [bNeg_sum15]; norm_num [bNeg], ?_, ?_⟩ <;>
    rw [createGCPI_amount_value bNeg gcNeg, bNeg_sum15] <;>
    norm_num [bNeg, gcNeg, min_def]

/-- C4. Applying the same credential twice is idempotent: the second application
returns the same basket and the same instrument as the first, and the basket
then carries exactly one instrument bound to the credential code, namely the
created one. -/
theorem createGiftCertificatePaymentInstrument_idempotent (b : Basket) (gc : GiftCertificate) :
    createGiftCertificatePaymentInstrument (createGiftCertificatePaymentInstrument b gc).1 gc
        = createGiftCertificatePaymentInstrument b gc ∧
    Basket.getGiftCertificatePaymentInstrumentsByCode
        (createGiftCertificatePaymentInstrument b gc).1 gc.giftCertificateCode
      = [(createGiftCertificatePaymentInstrument b gc).2] := by
  constructor
  · have hrm := remove_after_create b gc
    simp only [createGiftCertificatePaymentInstrument] at hrm ⊢
    rw [hrm]
    simp [remove_totalGrossPrice, remove_currencyCode]
  · simp only [createGiftCertificatePaymentInstrument, removeGiftCertPaymentInstrumentsByCode,
      Basket.getGiftCertificatePaymentInstrumentsByCode, List.filter_append]
    rw [filter_not_filter]
    simp [List.filter_cons]

/-- C5. On a basket holding no conventional payment instrument,
calculatePaymentTransaction reports no error exactly when the summed stored
value redemption total reaches the order total, and the basket is returned
unchanged: no payment instrument is mutated. -/
theorem calculatePaymentTransaction_no_conventional (b : Basket)
    (h : ∀ p ∈ b.paymentInstruments, p.paymentMethod = METHOD_GIFT_CERTIFICATE) :
    ((calculatePaymentTransaction b).error = false
        ↔ b.totalGrossPrice.value
            ≤ sumRedeemedValue b.getGiftCertificatePaymentInstruments) ∧
    (calculatePaymentTransaction b).basket = b := by
  have hall : b.getGiftCertificatePaymentInstruments = b.paymentInstruments := by
    rw [Basket.getGiftCertificatePaymentInstruments, List.filter_eq_self]
    intro p hp
    simp [h p hp]
  have hscan := scanInstruments_all_gc b.paymentInstruments ⟨0, b.currencyCode⟩ h
  have hval : (List.foldl (fun a p => a.add p.transactionAmount)
      (⟨0, b.currencyCode⟩ : Money) b.paymentInstruments).value
      = sumRedeemedValue b.paymentInstruments := by
    simpa using foldl_add_transactionAmount b.paymentInstruments ⟨0, b.currencyCode⟩
  rw [calculatePaymentTransaction, hscan, hall]
  by_cases hc : b.totalGrossPrice.value ≤ sumRedeemedValue b.paymentInstruments
  · rw [if_pos (by rw [hval]; exact hc)]
    simp [hc]
  · rw [if_neg (by rw [hval]; exact fun hh => hc hh)]
    simp [hc]

/-- C5, witness: a basket whose only instrument is a 10 USD gift certificate
redemption against a 10 USD order total succeeds and is returned unchanged. -/
theorem calculatePaymentTransaction_no_conventional_witness :
    (calculatePaymentTransaction bAllGC).error = false ∧
    (calculatePaymentTransaction bAllGC).basket = bAllGC :=
  ⟨((calculatePaymentTransaction_no_conventional bAllGC (by decide)).1).mpr
      (by simp [bAllGC, piA10, Basket.getGiftCertificatePaymentInstruments,
        sumRedeemedValue, METHOD_GIFT_CERTIFICATE]),
   (calculatePaymentTransaction_no_conventional bAllGC (by decide)).2⟩

/-- C6. On a basket whose instruments decompose as a block of gift certificate
instruments, then the first conventional instrument, then any rest,
calculatePaymentTransaction reports no error and only rewrites the payment
transaction amount of that first conventional instrument: to the order total
minus the full stored value redemption total when that difference is positive,
and to exactly zero Money in the order currency otherwise; the instruments
before and after it are untouched, so nothing is created, removed, and no
stored value instrument is modified. -/
theorem calculatePaymentTransaction_sets_open_amount (b : Basket)
    (pre post : List PaymentInstrument) (target : PaymentInstrument)
    (hsplit : b.paymentInstruments = pre ++ target :: post)
    (hpre : ∀ p ∈ pre, p.paymentMethod = METHOD_GIFT_CERTIFICATE)
    (ht : target.paymentMethod ≠ METHOD_GIFT_CERTIFICATE) :
    (calculatePaymentTransaction b).error = false ∧
    (calculatePaymentTransaction b).basket.paymentInstruments
      = pre ++ { target with transactionAmount :=
          ⟨if b.totalGrossPrice.value
                - sumRedeemedValue b.getGiftCertificatePaymentInstruments ≤ 0 then 0
            else b.totalGrossPrice.value
                - sumRedeemedValue b.getGiftCertificatePaymentInstruments,
            b.totalGrossPrice.currency⟩ } :: post := by
  have hscan := scanInstruments_split pre target post ⟨0, b.currencyCode⟩ hpre ht
  have hamount : getNonGiftCertificateAmount b
      = ⟨b.totalGrossPrice.value
          - sumRedeemedValue b.getGiftCertificatePaymentInstruments,
          b.totalGrossPrice.currency⟩ := by
    rw [getNonGiftCertificateAmount, Money.subtract, sumGiftCertTotal_value]
  rw [calculatePaymentTransaction, hsplit, hscan]
  refine ⟨rfl, ?_⟩
  rw [hamount]
  by_cases hc : b.totalGrossPrice.value
      - sumRedeemedValue b.getGiftCertificatePaymentInstruments ≤ 0
  · rw [if_pos hc]
    simp only [if_pos hc]
    exact setFirstNonGCAmount_split pre target post _ hpre ht
  · rw [if_neg hc]
    simp only [if_neg hc]
    exact setFirstNonGCAmount_split pre target post _ hpre ht

/-- C6, witness: basket with a 3 USD redemption then a card instrument against a
10 USD total; the card transaction amount is set to the open amount. -/
theorem calculatePaymentTransaction_sets_open_amount_witness :
    (calculatePaymentTransaction bConv).error = false ∧
    (calculatePaymentTransaction bConv).basket.paymentInstruments
      = [piA3] ++ { cardInstr with transactionAmount :=
          ⟨if bConv.totalGrossPrice.value
                - sumRedeemedValue bConv.getGiftCertificatePaymentInstruments ≤ 0 then 0
            else bConv.totalGrossPrice.value
                - sumRedeemedValue bConv.getGiftCertificatePaymentInstruments,
            bConv.totalGrossPrice.currency⟩ } :: [] :=
  calculatePaymentTransaction_sets_open_amount bConv [piA3] [] cardInstr rfl
    (by decide) (by decide)

/-- C2, counterexample to the claim as stated: on an order with one certificate
line item and a successful placement, the run succeeds yet the email dispatch
event occurs strictly before the commit event, and when the dispatch raises the
failure is folded into the operation result as error true. -/
theorem placeOrder_email_before_commit_counterexample :
    (placeOrder ordOne "ok" stOK noFail).error = false ∧
    existsEmailBeforeCommit (placeOrder ordOne "ok" stOK noFail).events = true ∧
    (placeOrder ordOne "ok" stOK allFail).error = true := by
  decide

/-- C2, amended: placeOrder never dispatches a recipient email after the commit
event, so notification dispatch happens inside the transaction, before commit;
and a failure raised by the first dispatch is folded into the operation result:
the commit never happens, the compensating failOrder runs in its own
transaction, and the result carries error true. -/
theorem placeOrder_email_dispatch_inside_transaction (order : Order) (fraud : String)
    (st : DwStatus) (f : Nat → Bool) :
    emailAfterCommitB (placeOrder order fraud st f).events = false ∧
    (order.giftCertificateLineItems ≠ [] → f 0 = true →
      (placeOrder order fraud st f).error = true ∧
      Ev.txCommit ∉ (placeOrder order fraud st f).events ∧
      Ev.failOrderInOwnTransaction ∈ (placeOrder order fraud st f).events) := by
  have hnc1 : Ev.txCommit ∉ (certsOf order).map Ev.createCertificate :=
    txCommit_not_mem_map_create _
  have hnc2 : Ev.txCommit ∉ (sendEmailsRun f 0 (certsOf order)).1 :=
    txCommit_not_mem_sendEmailsRun f 0 _
  rw [placeOrder_unfold]
  by_cases hr : (sendEmailsRun f 0 (certsOf order)).2
  · rw [if_pos hr]
    have hnc : Ev.txCommit ∉
        ([Ev.txBegin, Ev.placeOrderCall, Ev.setConfirmation (!(fraud == "flag")),
            Ev.setExportReady] ++ (certsOf order).map Ev.createCertificate
          ++ (sendEmailsRun f 0 (certsOf order)).1 ++ [Ev.failOrderInOwnTransaction]) := by
      intro hmem
      simp [hnc1, hnc2] at hmem
    exact ⟨emailAfterCommitB_of_not_mem _ hnc, fun hne hf0 => ⟨rfl, hnc, by simp⟩⟩
  · rw [if_neg hr]
    constructor
    · apply emailAfterCommitB_append_commit
      intro hmem
      simp [hnc1, hnc2] at hmem
    · intro hne hf0
      exfalso
      apply hr
      rcases hx : order.giftCertificateLineItems with _ | ⟨li, rest⟩
      · exact absurd hx hne
      · rw [certsOf, hx, List.map_cons]
        simp [sendEmailsRun, hf0]

/-- C2, witness for the amended theorem: on the one line item order with a
dispatch that raises, the placement reports error true. -/
theorem placeOrder_email_dispatch_inside_transaction_witness :
    ordOne.giftCertificateLineItems ≠ [] ∧ allFail 0 = true ∧
    (placeOrder ordOne "ok" stOK allFail).error = true :=
  ⟨by decide, rfl,
   ((placeOrder_email_dispatch_inside_transaction ordOne "ok" stOK allFail).2
      (by decide) rfl).1⟩

/-- C3, evaluation of the code bug: the strict equality check compares the
Status host object returned by order management against the Number constant
Status.ERROR, which is never true, so when placement returns an ERROR status
the run still reports error false, materializes the certificate, dispatches
the email and commits, and the compensating failOrder never runs. -/
theorem placeOrder_error_status_ignored :
    stErr.status = 1 ∧
    jsStrictEq (JsValue.obj stErr.objId) (JsValue.num Status.ERROR) = false ∧
    (placeOrder ordOne "ok" stErr noFail).error = false ∧
    (placeOrder ordOne "ok" stErr noFail).materializedGiftCertificates.length = 1 ∧
    Ev.txCommit ∈ (placeOrder ordOne "ok" stErr noFail).events ∧
    (placeOrder ordOne "ok" stErr noFail).events.any isSendEmail = true ∧
    Ev.failOrderInOwnTransaction ∉ (placeOrder ordOne "ok" stErr noFail).events := by
  refine ⟨rfl, rfl, rfl, rfl, by decide, rfl, by decide⟩

/-- C7. Whenever placeOrder returns without error, it materializes exactly one
gift certificate per certificate line item of the order; the certificate at
each index takes its balance value from the net price of the line item at the
same index, copies recipient email, recipient name, sender name and message
verbatim, and is tagged with the order number; and the dispatched email events
are exactly one per materialized certificate, in order, addressed to its
recipient. -/
theorem placeOrder_materializes_certificates (order : Order) (fraud : String)
    (st : DwStatus) (f : Nat → Bool)
    (h : (placeOrder order fraud st f).error = false) :
    (placeOrder order fraud st f).materializedGiftCertificates.length
        = order.giftCertificateLineItems.length ∧
    (∀ i, (hi : i < order.giftCertificateLineItems.length) →
      ∃ hj : i < (placeOrder order fraud st f).materializedGiftCertificates.length,
        ((placeOrder order fraud st f).materializedGiftCertificates.get ⟨i, hj⟩).balance.value
            = (order.giftCertificateLineItems.get ⟨i, hi⟩).netPrice.value ∧
        ((placeOrder order fraud st f).materializedGiftCertificates.get ⟨i, hj⟩).recipientEmail
            = (order.giftCertificateLineItems.get ⟨i, hi⟩).recipientEmail ∧
        ((placeOrder order fraud st f).materializedGiftCertificates.get ⟨i, hj⟩).recipientName
            = (order.giftCertificateLineItems.get ⟨i, hi⟩).recipientName ∧
        ((placeOrder order fraud st f).materializedGiftCertificates.get ⟨i, hj⟩).senderName
            = (order.giftCertificateLineItems.get ⟨i, hi⟩).senderName ∧
        ((placeOrder order fraud st f).materializedGiftCertificates.get ⟨i, hj⟩).message
            = (order.giftCertificateLineItems.get ⟨i, hi⟩).message ∧
        ((placeOrder order fraud st f).materializedGiftCertificates.get ⟨i, hj⟩).orderNo
            = order.orderNo) ∧
    (placeOrder order fraud st f).events.filter isSendEmail
        = (placeOrder order fraud st f).materializedGiftCertificates.map
            (fun gc => Ev.sendEmail gc.recipientEmail) := by
  rw [placeOrder_unfold] at h ⊢
  by_cases hr : (sendEmailsRun f 0 (certsOf order)).2
  · rw [if_pos hr] at h
    exact absurd h (by simp)
  · rw [if_neg hr] at h ⊢
    refine ⟨by simp [certsOf], ?_, ?_⟩
    · intro i hi
      refine ⟨by simpa [certsOf] using hi, ?_⟩
      simp [certsOf, List.get_eq_getElem, List.getElem_map, createGiftCertificateFromLineItem]
    · rw [List.filter_append, List.filter_append, List.filter_append]
      rw [filter_isSendEmail_map_create,
        sendEmailsRun_no_raise f 0 _ (by simpa using hr),
        filter_isSendEmail_map_sendEmail]
      simp [isSendEmail]

/-- C7, witness: on the two line item order with amounts 25 and 10 USD and a
successful run, exactly two certificates are materialized. -/
theorem placeOrder_materializes_certificates_witness :
    (placeOrder ordTwo "ok" stOK noFail).materializedGiftCertificates.length
      = ordTwo.giftCertificateLineItems.length :=
  (placeOrder_materializes_certificates ordTwo "ok" stOK noFail (by decide)).1

/-- C8. After a successful updateGiftCert, looking the line item up again by the
UUID carried in the form and rebuilding its form object yields exactly the
values just stored: sender, recipient, recipient email, message, and the amount
just written, with no drift, under either taxation policy. -/
theorem updateGiftCert_getGiftLineItemObj_roundtrip (b : Basket)
    (form : GiftCertPurchaseForm) (updatedBasket : Basket)
    (item : GiftCertificateLineItem) (taxNet : Bool)
    (h : updateGiftCert b form = some (updatedBasket, item)) :
    getGiftCertificateLineItemByUUID updatedBasket.giftCertificateLineItems
        form.lineItemId.value = some item ∧
    (getGiftLineItemObj taxNet item).fromName = form.fromName.value ∧
    (getGiftLineItemObj taxNet item).recipient = form.recipient.value ∧
    (getGiftLineItemObj taxNet item).recipientEmail = form.recipientEmail.value ∧
    (getGiftLineItemObj taxNet item).message = form.message.value ∧
    (getGiftLineItemObj taxNet item).amount = form.amount.value := by
  rw [updateGiftCert] at h
  by_cases hcond : (b.giftCertificateLineItems.length > 0
      && !(form.lineItemId.value == "")) = true
  · rw [if_pos hcond] at h
    rcases hfind : getGiftCertificateLineItemByUUID b.giftCertificateLineItems
        form.lineItemId.value with _ | it0
    · rw [hfind] at h
      exact absurd h (by simp)
    · rw [hfind] at h
      simp only [Option.some.injEq, Prod.mk.injEq] at h
      obtain ⟨hb, hit⟩ := h
      constructor
      · rw [← hb, ← hit]
        exact getByUUID_replace form.lineItemId.value it0 _ b.giftCertificateLineItems
          hfind rfl
      · rw [← hit]
        cases taxNet <;>
          simp [getGiftLineItemObj, GiftCertificateLineItem.price]
  · rw [if_neg hcond] at h
    exact absurd h (by simp)

/-- C8, witness: editing line item u9 with the concrete form values and reading
the form object back returns the amount 30 just written. -/
theorem updateGiftCert_getGiftLineItemObj_roundtrip_witness :
    (getGiftLineItemObj true item8).amount = f8.amount.value :=
  (updateGiftCert_getGiftLineItemObj_roundtrip bForm f8 bForm2 item8 true
    (by rfl)).2.2.2.2.2

/-- C9. The MiniCart handler is total only when a current basket exists: for a
null current basket it reaches the unguarded dereference of
giftCertificateLineItems and raises instead of rendering a zero quantity, while
for any existing basket it renders the product quantity total plus the number
of certificate line items when positive. -/
theorem miniCart_null_basket_raises :
    miniCart none = Except.error () ∧
    miniCart none ≠ Except.ok 0 ∧
    ∀ b : Basket, miniCart (some b)
      = Except.ok (if b.giftCertificateLineItems.length > 0 then
          b.productQuantityTotal + b.giftCertificateLineItems.length
        else b.productQuantityTotal) := by
  refine ⟨rfl, by simp [miniCart], fun b => ?_⟩
  rw [miniCart]
  split <;> rfl

/-- C10. processAddToBasket marks the form invalid exactly when the recipient
and confirmation emails differ after lower casing, or when the still valid
amount lies below 5 or above 5000; the final validity is false exactly under
one of these triggers and is otherwise the incoming validity, and a form that
passes both checks is returned entirely unchanged, so emails differing only in
letter case are accepted as matching. -/
theorem processAddToBasket_validity (form : GiftCertForm) :
    ((processAddToBasket form).valid
      = if toLowerCase form.purchase.recipientEmail.value
              ≠ toLowerCase form.purchase.confirmRecipientEmail.value
            ∨ (form.purchase.amount.valid = true
              ∧ (form.purchase.amount.value < 5 ∨ form.purchase.amount.value > 5000))
        then false else form.valid) ∧
    ((toLowerCase form.purchase.recipientEmail.value
          = toLowerCase form.purchase.confirmRecipientEmail.value ∧
      ¬(form.purchase.amount.valid = true
          ∧ (form.purchase.amount.value < 5 ∨ form.purchase.amount.value > 5000))) →
      processAddToBasket form = form) := by
  by_cases he : toLowerCase form.purchase.recipientEmail.value
      = toLowerCase form.purchase.confirmRecipientEmail.value
  · by_cases ha : form.purchase.amount.valid = true
        ∧ (form.purchase.amount.value < 5 ∨ form.purchase.amount.value > 5000)
    · constructor
      · rw [if_pos (Or.inr ha)]
        obtain ⟨hav, hrange⟩ := ha
        have hcond2 : (form.purchase.amount.valid
            && (decide (form.purchase.amount.value < 5)
              || decide (form.purchase.amount.value > 5000))) = true := by
          rcases hrange with hlow | hhigh
          · simp [hav, hlow]
          · simp [hav, hhigh]
        simp [processAddToBasket, he, hcond2]
      · intro hpass
        exact absurd ha hpass.2
    · have hcond2 : (form.purchase.amount.valid
          && (decide (form.purchase.amount.value < 5)
            || decide (form.purchase.amount.value > 5000))) = false := by
        rcases hv : form.purchase.amount.valid with _ | _
        · simp
        · simp only [Bool.true_and]
          rw [Bool.or_eq_false_iff]
          constructor <;> rw [decide_eq_false_iff_not] <;> intro hx <;>
            exact ha ⟨hv, by tauto⟩
      constructor
      · rw [if_neg (by
          push_neg
          exact ⟨he, fun hv => ⟨le_of_not_lt (fun hx => ha ⟨hv, Or.inl hx⟩),
            le_of_not_lt (fun hx => ha ⟨hv, Or.inr hx⟩)⟩⟩)]
        simp [processAddToBasket, he, hcond2]
      · intro hpass
        simp [processAddToBasket, he, hcond2]
  · constructor
    · rw [if_pos (Or.inl he)]
      have hcond1 : (toLowerCase form.purchase.recipientEmail.value
          == toLowerCase form.purchase.confirmRecipientEmail.value) = false := by
        simpa using he
      by_cases ha2 : (form.purchase.amount.valid
          && (decide (form.purchase.amount.value < 5)
            || decide (form.purchase.amount.value > 5000))) = true
      · simp [processAddToBasket, hcond1, ha2]
      · simp only [Bool.not_eq_true] at ha2
        simp [processAddToBasket, hcond1, ha2]
    · intro hpass
      exact absurd hpass.1 he

/-- C10, witness: a form with emails differing only in letter case and amount 50
passes both checks and is returned unchanged. -/
theorem processAddToBasket_validity_witness :
    processAddToBasket f10 = f10 :=
  (processAddToBasket_validity f10).2
    ⟨by decide, by norm_num [f10]⟩

end GiftCert
